import Mathlib

/-!
Shallow embedding of the metadata-inventory fetch-retry-upsert core.

Source files embedded:
- app/models/metadata/document.py: MetadataDocument
- app/models/metadata/schemas.py: MetadataResponse
- app/core/config.py: Settings
- app/workers/fetcher.py: the single-attempt fetch, the tenacity retry
  wrapper and fetch_metadata
- app/repositories/metadata/repository.py: MetadataRepository.upsert
- app/services/metadata/service.py: store_metadata, background_collect

Modelling conventions:
- timestamps are abstract instants (Nat); every call that reads the wall
  clock receives the reading as an explicit argument,
- python dicts become association lists,
- raised exceptions become explicit result constructors,
- the network is an oracle (Nat -> FetchOutcome) giving the outcome of the
  HTTP GET of each 1-based attempt number, together with a clock
  (Nat -> Nat) giving the wall-clock reading taken at the start of each
  attempt,
- the MongoDB collection is reduced to the single url-keyed slot the
  operation touches (Option MetadataDocument); the driver anomalies that
  cannot arise from the sequential slot semantics (the duplicate-key race
  between two concurrent first inserts, and generic PyMongoError) are
  injected as an explicit DbAnomaly argument.
-/

namespace MetadataInventory

/-- app/models/metadata/document.py: the internal stored record. -/
structure MetadataDocument where
  url : String
  status_code : Int
  headers : List (String × String)
  cookies : List (String × String)
  page_source : String
  created_at : Nat
  updated_at : Nat
deriving DecidableEq

/-- app/models/metadata/schemas.py: the API response shape; it has no
page_source field. -/
structure MetadataResponse where
  url : String
  status_code : Int
  headers : List (String × String)
  cookies : List (String × String)
  created_at : Nat
  updated_at : Nat
deriving DecidableEq

/-- app/api/metadata/routes.py, get_metadata: the read-path projection
MetadataResponse(**doc.model_dump(exclude=set page_source)). -/
def toResponse (d : MetadataDocument) : MetadataResponse :=
  { url := d.url
    status_code := d.status_code
    headers := d.headers
    cookies := d.cookies
    created_at := d.created_at
    updated_at := d.updated_at }

/-- app/core/config.py: the Settings model (its exact fields). Durations are
rationals in abstract time-units. -/
structure Settings where
  mongo_uri : String
  mongo_db : String
  mongo_max_pool_size : Nat
  http_timeout : ℚ
  http_max_retries : Nat
  http_verify_ssl : Bool
  log_level : String
deriving DecidableEq

/-- app/core/config.py: the field defaults of Settings. -/
def default_settings : Settings :=
  { mongo_uri := "mongodb://localhost:27017"
    mongo_db := "metadata_inventory"
    mongo_max_pool_size := 10
    http_timeout := 10
    http_max_retries := 3
    http_verify_ssl := true
    log_level := "INFO" }

/-- A Settings value differing from the defaults in every numeric, boolean
and string field; used to exhibit configuration-independence of the backoff. -/
def alt_settings : Settings :=
  { mongo_uri := "mongodb://db:27018"
    mongo_db := "other"
    mongo_max_pool_size := 1
    http_timeout := 99
    http_max_retries := 7
    http_verify_ssl := false
    log_level := "DEBUG" }

/-- tenacity wait_exponential (tenacity/wait.py): the waiting time before the
retry that follows attempt number n is
max (max 0 minDelay) (min (multiplier * exp_base ^ (n - 1)) maxDelay)
with exp_base = 2. -/
def wait_exponential (multiplier minDelay maxDelay : ℚ) (attemptNumber : Nat) : ℚ :=
  max (max 0 minDelay) (min (multiplier * 2 ^ (attemptNumber - 1)) maxDelay)

/-- app/workers/fetcher.py, retry decorator: wait_exponential(multiplier=0.5,
min=0.5, max=10). The three delay parameters are literal constants at the
decoration site; the Settings argument is taken only to record that no
configuration field reaches the wait policy (only the stop condition reads
settings, see fetch_metadata below). -/
def fetch_retry_wait (_settings : Settings) (attemptNumber : Nat) : ℚ :=
  wait_exponential (1 / 2) (1 / 2) 10 attemptNumber

/-- Backoff as the spec words it (spec 4.2): a configurable minimum delay
doubled each attempt and capped at a configurable maximum delay. Declared
only to compare the spec reading of the backoff with the source behaviour. -/
def spec_backoff_wait (minDelay maxDelay : ℚ) (attemptNumber : Nat) : ℚ :=
  min (minDelay * 2 ^ (attemptNumber - 1)) maxDelay

/-- The data of one httpx response consumed by the fetcher. -/
structure HttpResponse where
  status_code : Int
  headers : List (String × String)
  cookies : List (String × String)
  text : String
deriving DecidableEq

/-- Outcome of one raw client.get call, as classified by the except clauses
of the single-attempt fetch in app/workers/fetcher.py: a response, or one of
httpx.TimeoutException, httpx.ConnectError, httpx.InvalidURL, or any other
httpx.RequestError. -/
inductive FetchOutcome where
  | success (response : HttpResponse)
  | timeout (msg : String)
  | connectError (msg : String)
  | invalidURL (msg : String)
  | requestError (msg : String)
deriving DecidableEq

/-- The two transiently-classified exception types of the retry decorator:
httpx.TimeoutException and httpx.ConnectError. -/
def FetchOutcome.isTransient : FetchOutcome → Bool
  | .timeout _ => true
  | .connectError _ => true
  | _ => false

/-- Request-level failures the single-attempt fetch wraps as FetchError
immediately: httpx.InvalidURL and any other httpx.RequestError. -/
def FetchOutcome.isPermanentFailure : FetchOutcome → Bool
  | .invalidURL _ => true
  | .requestError _ => true
  | _ => false

/-- A transient exception propagated unchanged for the retry logic. -/
inductive TransientErr where
  | timeout (msg : String)
  | connectError (msg : String)
deriving DecidableEq

/-- str() of the underlying httpx exception. -/
def TransientErr.describe : TransientErr → String
  | .timeout m => m
  | .connectError m => m

/-- Result of the single-attempt fetch: a document, a transient exception
re-raised for the retry logic, or a FetchError raised directly. -/
inductive DoFetchResult where
  | ok (doc : MetadataDocument)
  | transient (e : TransientErr)
  | fetchErr (msg : String)
deriving DecidableEq

/-- app/workers/fetcher.py, the single-attempt fetch (lines 92-120): one GET,
with httpx.InvalidURL and generic httpx.RequestError wrapped as FetchError,
timeouts and connect failures re-raised unchanged, and a success mapped to a
MetadataDocument whose created_at and updated_at are both the wall-clock
reading now taken at the start of the call. -/
def do_fetch (url : String) (now : Nat) (o : FetchOutcome) : DoFetchResult :=
  match o with
  | .success r =>
      .ok { url := url
            status_code := r.status_code
            headers := r.headers
            cookies := r.cookies
            page_source := r.text
            created_at := now
            updated_at := now }
  | .invalidURL m => .fetchErr ("Invalid URL '" ++ url ++ "': " ++ m)
  | .timeout m => .transient (TransientErr.timeout m)
  | .connectError m => .transient (TransientErr.connectError m)
  | .requestError m => .fetchErr ("Request error for '" ++ url ++ "': " ++ m)

/-- Result of the tenacity-wrapped call: a document, a RetryError carrying
the last attempt's transient exception (reraise=False), or a non-retryable
exception propagated as-is. -/
inductive RetryResult where
  | ok (doc : MetadataDocument)
  | retryError (last : TransientErr)
  | raised (msg : String)
deriving DecidableEq

/-- app/workers/fetcher.py, the tenacity retry loop (lines 60-69).
Attempts are numbered from 1 as in tenacity; the stop condition
attempt_number >= http_max_retries + 1 is checked after each failed
attempt, so gas = http_max_retries + 1 - attemptNumber counts the retries
still allowed. Only transient outcomes are retried; any other exception is
propagated after a single attempt; when the budget is exhausted a RetryError
wrapping the last transient exception is raised. -/
def retry_loop (url : String) (oracle : Nat → FetchOutcome) (times : Nat → Nat)
    (gas attemptNumber : Nat) : RetryResult :=
  match do_fetch url (times attemptNumber) (oracle attemptNumber) with
  | .ok doc => .ok doc
  | .fetchErr m => .raised m
  | .transient e =>
    match gas with
    | 0 => .retryError e
    | g + 1 => retry_loop url oracle times g (attemptNumber + 1)

/-- Number of fetch attempts retry_loop performs: the attempt at
attemptNumber always runs, and a further attempt follows exactly when its
outcome is transient and budget remains, as in retry_loop. -/
def retry_attempts (url : String) (oracle : Nat → FetchOutcome) (times : Nat → Nat)
    (gas attemptNumber : Nat) : Nat :=
  match gas with
  | 0 => 1
  | g + 1 =>
    match do_fetch url (times attemptNumber) (oracle attemptNumber) with
    | .transient _ => 1 + retry_attempts url oracle times g (attemptNumber + 1)
    | _ => 1

/-- The tenacity-wrapped single fetch, entered at attempt number 1 with a
budget of settings.http_max_retries further attempts. -/
def fetch_with_retry (url : String) (oracle : Nat → FetchOutcome) (times : Nat → Nat)
    (s : Settings) : RetryResult :=
  retry_loop url oracle times s.http_max_retries 1

/-- Total number of attempts performed by one fetch_with_retry call. -/
def attempts_made (url : String) (oracle : Nat → FetchOutcome) (times : Nat → Nat)
    (s : Settings) : Nat :=
  retry_attempts url oracle times s.http_max_retries 1

/-- Result of fetch_metadata: a document or a raised FetchError. -/
inductive FetchResult where
  | ok (doc : MetadataDocument)
  | fetchError (msg : String)
deriving DecidableEq

/-- app/workers/fetcher.py, fetch_metadata (lines 72-89): calls the wrapped
fetch and turns a RetryError into a FetchError naming the url, the attempt
count settings.http_max_retries + 1 and the last underlying exception; any
other exception (in particular a FetchError from the single attempt) is
propagated untouched. -/
def fetch_metadata (url : String) (oracle : Nat → FetchOutcome) (times : Nat → Nat)
    (s : Settings) : FetchResult :=
  match fetch_with_retry url oracle times s with
  | .ok d => .ok d
  | .raised m => .fetchError m
  | .retryError e =>
      .fetchError ("Failed to fetch " ++ url ++ " after "
        ++ toString (s.http_max_retries + 1) ++ " attempts: " ++ e.describe)

/-- Outcome of MetadataRepository.upsert: the stored post-write document, or
a RuntimeError (the StoreFailure of the spec) carrying its message and the
message of the exception it was raised from, when any. -/
inductive UpsertOutcome where
  | ok (stored : MetadataDocument)
  | storeFailure (msg : String) (cause : Option String)
deriving DecidableEq

/-- Driver-level anomaly injected into one upsert call. normal means the
atomic find_one_and_update behaves per the sequential slot semantics;
duplicateRace means it raised DuplicateKeyError (two first inserts raced on
the unique url index) and carries what the follow-up plain update finds;
failure carries the message of any other PyMongoError. -/
inductive DbAnomaly where
  | normal
  | duplicateRace (retryFinds : Option MetadataDocument)
  | failure (msg : String)
deriving DecidableEq

/-- Result of one upsert call: its outcome, the post-call state of the url
slot, and how many write operations were sent to the collection. -/
structure UpsertResult where
  result : UpsertOutcome
  state : Option MetadataDocument
  writeOps : Nat
deriving DecidableEq

/-- Effect of the update document on a matched or inserted record: $set
writes every candidate field except created_at plus updated_at := now, and
created_at comes from $setOnInsert on insert or is left untouched on update;
createdAt below is that resulting creation time. -/
def applyPayload (d : MetadataDocument) (now createdAt : Nat) : MetadataDocument :=
  { url := d.url
    status_code := d.status_code
    headers := d.headers
    cookies := d.cookies
    page_source := d.page_source
    created_at := createdAt
    updated_at := now }

/-- app/repositories/metadata/repository.py, MetadataRepository.upsert
(lines 24-66). now is the wall-clock reading datetime.now taken at the start
of the call. The atomic upsert matches on url; on update it keeps the prior
created_at, on insert it takes created_at from the candidate. On
DuplicateKeyError it retries exactly once as a plain conditional update on
url with no insert branch, raising RuntimeError if that update matched no
document; any other PyMongoError is wrapped in RuntimeError. -/
def upsert (d : MetadataDocument) (now : Nat) (slot : Option MetadataDocument)
    (a : DbAnomaly) : UpsertResult :=
  match a with
  | .normal =>
    match slot with
    | Option.none =>
      let stored := applyPayload d now d.created_at
      ⟨.ok stored, some stored, 1⟩
    | some prior =>
      let stored := applyPayload d now prior.created_at
      ⟨.ok stored, some stored, 1⟩
  | .duplicateRace retryFinds =>
    match retryFinds with
    | Option.none =>
      ⟨.storeFailure ("Upsert race condition unresolved for url=" ++ d.url)
        (some "DuplicateKeyError"), Option.none, 2⟩
    | some prior =>
      let stored := applyPayload d now prior.created_at
      ⟨.ok stored, some stored, 2⟩
  | .failure m =>
    ⟨.storeFailure "Database write error" (some m), slot, 1⟩

/-- Creation timestamp the write leaves in place: the prior record's when the
slot is occupied, the candidate's when the write inserts. -/
def slotCreated (slot : Option MetadataDocument) (d : MetadataDocument) : Nat :=
  match slot with
  | Option.none => d.created_at
  | some prior => prior.created_at

/-- A sequence of anomaly-free upserts on the same url slot, each step being
a candidate document together with the wall-clock reading of its write;
returns the successive stored documents. -/
def run_upserts (slot : Option MetadataDocument) :
    List (MetadataDocument × Nat) → List MetadataDocument
  | [] => []
  | (d, now) :: rest =>
    let r := upsert d now slot DbAnomaly.normal
    match r.result with
    | .ok stored => stored :: run_upserts r.state rest
    | .storeFailure _ _ => run_upserts r.state rest

/-- Exceptions store_metadata can raise: the fetcher's FetchError or the
repository's RuntimeError. -/
inductive ServiceErr where
  | fetchError (msg : String)
  | storeFailure (msg : String) (cause : Option String)
deriving DecidableEq

/-- Outcome of store_metadata. -/
inductive ServiceOutcome where
  | ok (stored : MetadataDocument)
  | error (e : ServiceErr)
deriving DecidableEq

/-- Result of one store_metadata call: its outcome, the post-call url slot,
and how many write operations reached the collection. -/
structure StoreMetadataResult where
  outcome : ServiceOutcome
  state : Option MetadataDocument
  storeWriteOps : Nat
deriving DecidableEq

/-- app/services/metadata/service.py, store_metadata (lines 22-33): fetch
then upsert, both results propagated unmodified; the upsert is reached only
when the fetch returned a document. -/
def store_metadata (url : String) (oracle : Nat → FetchOutcome) (times : Nat → Nat)
    (s : Settings) (now : Nat) (slot : Option MetadataDocument) (a : DbAnomaly) :
    StoreMetadataResult :=
  match fetch_metadata url oracle times s with
  | .fetchError m => ⟨.error (.fetchError m), slot, 0⟩
  | .ok doc =>
    match upsert doc now slot a with
    | ⟨.ok stored, slot2, ops⟩ => ⟨.ok stored, slot2, ops⟩
    | ⟨.storeFailure m c, slot2, ops⟩ => ⟨.error (.storeFailure m c), slot2, ops⟩

/-- Severity of a log call in background_collect: logger.error for the
FetchError branch, logger.exception for the catch-all branch. -/
inductive LogLevel where
  | error
  | exception
deriving DecidableEq

/-- Result of one background_collect call: the exception escaping it, if
any, the log records it emitted, and the post-call url slot. -/
structure BgResult where
  raised : Option ServiceErr
  logs : List (LogLevel × String)
  state : Option MetadataDocument
deriving DecidableEq

/-- app/services/metadata/service.py, background_collect (lines 35-48):
calls store_metadata inside try; the except FetchError clause logs at error
level, the except Exception clause logs with logger.exception; neither
branch re-raises and nothing is returned. -/
def background_collect (url : String) (oracle : Nat → FetchOutcome) (times : Nat → Nat)
    (s : Settings) (now : Nat) (slot : Option MetadataDocument) (a : DbAnomaly) :
    BgResult :=
  let r := store_metadata url oracle times s now slot a
  match r.outcome with
  | .ok _ => ⟨Option.none, [], r.state⟩
  | .error (.fetchError m) =>
      ⟨Option.none, [(LogLevel.error, "Background fetch failed for " ++ url ++ ": " ++ m)],
        r.state⟩
  | .error (.storeFailure m _) =>
      ⟨Option.none,
        [(LogLevel.exception, "Unexpected error in background_collect for " ++ url ++ ": " ++ m)],
        r.state⟩

/-- Fixture: a concrete record used by concrete instantiations. -/
def sample_doc : MetadataDocument :=
  { url := "https://example.com/"
    status_code := 200
    headers := [("content-type", "text/html")]
    cookies := []
    page_source := "<html></html>"
    created_at := 4
    updated_at := 4 }

/-- Fixture: sample_doc with a different page_source only. -/
def sample_doc_alt : MetadataDocument :=
  { sample_doc with page_source := "<html><body>x</body></html>" }

/-- Fixture: a later candidate for the same url. -/
def sample_doc2 : MetadataDocument :=
  { sample_doc with status_code := 404, created_at := 8, updated_at := 8 }

/-- Fixture: the default settings with a retry budget of 1. -/
def test_settings : Settings :=
  { default_settings with http_max_retries := 1 }

/- ------------------------------------------------------------------ -/
/- Theorems                                                            -/
/- ------------------------------------------------------------------ -/

/-- C2: on a duplicate-key race the upsert performs exactly one more write
operation, a plain conditional update matching on url with no insert branch.
When that retry matches a document the caller gets a plain success keeping
the matched document's creation time; when it matches nothing the call fails
with the unresolved-race StoreFailure naming the url, and nothing is
inserted. -/
theorem C2_duplicate_race_policy (d prior : MetadataDocument) (now : Nat)
    (slot : Option MetadataDocument) :
    upsert d now slot (DbAnomaly.duplicateRace (some prior)) =
      ⟨UpsertOutcome.ok (applyPayload d now prior.created_at),
        some (applyPayload d now prior.created_at), 2⟩ ∧
    upsert d now slot (DbAnomaly.duplicateRace Option.none) =
      ⟨UpsertOutcome.storeFailure
        ("Upsert race condition unresolved for url=" ++ d.url)
        (some "DuplicateKeyError"),
        Option.none, 2⟩ :=
  ⟨rfl, rfl⟩

/-- C3: a successful upsert overwrites every stored field except created_at.
On update the prior created_at is preserved; on insert created_at is the
candidate's timestamp; in both cases updated_at is the wall-clock reading
taken by the repository at the write, whatever updated_at the candidate
carried. -/
theorem C3_upsert_timestamp_policy (d prior : MetadataDocument) (now : Nat) :
    (∃ stored : MetadataDocument,
      upsert d now (some prior) DbAnomaly.normal = ⟨UpsertOutcome.ok stored, some stored, 1⟩ ∧
      stored.created_at = prior.created_at ∧
      stored.updated_at = now ∧
      stored.url = d.url ∧ stored.status_code = d.status_code ∧
      stored.headers = d.headers ∧ stored.cookies = d.cookies ∧
      stored.page_source = d.page_source) ∧
    (∃ stored : MetadataDocument,
      upsert d now Option.none DbAnomaly.normal = ⟨UpsertOutcome.ok stored, some stored, 1⟩ ∧
      stored.created_at = d.created_at ∧
      stored.updated_at = now ∧
      stored.url = d.url ∧ stored.status_code = d.status_code ∧
      stored.headers = d.headers ∧ stored.cookies = d.cookies ∧
      stored.page_source = d.page_source) :=
  ⟨⟨applyPayload d now prior.created_at, rfl, rfl, rfl, rfl, rfl, rfl, rfl, rfl⟩,
   ⟨applyPayload d now d.created_at, rfl, rfl, rfl, rfl, rfl, rfl, rfl, rfl⟩⟩

/-- C9: any storage error other than the duplicate-key race makes upsert
fail with the generic StoreFailure wrapping the underlying error, after a
single write operation (no retry) and without touching the stored record. -/
theorem C9_generic_store_failure (d : MetadataDocument) (now : Nat)
    (slot : Option MetadataDocument) (msg : String) :
    upsert d now slot (DbAnomaly.failure msg) =
      ⟨UpsertOutcome.storeFailure "Database write error" (some msg), slot, 1⟩ :=
  rfl

/-- C6: background_collect never lets an exception escape; every failure of
the underlying store_metadata call is turned into exactly one log record
naming the url, and nothing is returned to the caller. -/
theorem C6_background_collect_never_raises (url : String) (oracle : Nat → FetchOutcome)
    (times : Nat → Nat) (s : Settings) (now : Nat) (slot : Option MetadataDocument)
    (a : DbAnomaly) :
    (background_collect url oracle times s now slot a).raised = Option.none ∧
    (background_collect url oracle times s now slot a).logs =
      (match (store_metadata url oracle times s now slot a).outcome with
       | .ok _ => []
       | .error (.fetchError m) =>
           [(LogLevel.error, "Background fetch failed for " ++ url ++ ": " ++ m)]
       | .error (.storeFailure m _) =>
           [(LogLevel.exception,
             "Unexpected error in background_collect for " ++ url ++ ": " ++ m)]) := by
  cases h : (store_metadata url oracle times s now slot a).outcome with
  | ok stored => exact ⟨by simp [background_collect, h], by simp [background_collect, h]⟩
  | error e =>
    cases e with
    | fetchError m => exact ⟨by simp [background_collect, h], by simp [background_collect, h]⟩
    | storeFailure m c => exact ⟨by simp [background_collect, h], by simp [background_collect, h]⟩

/-- C7: the externally-returned projection carries exactly url, status_code,
headers, cookies, created_at and updated_at of the stored record, and omits
page_source: two records agreeing on those six fields project to the same
response whatever their bodies are. -/
theorem C7_projection_excludes_body (d e : MetadataDocument)
    (h1 : d.url = e.url) (h2 : d.status_code = e.status_code)
    (h3 : d.headers = e.headers) (h4 : d.cookies = e.cookies)
    (h5 : d.created_at = e.created_at) (h6 : d.updated_at = e.updated_at) :
    toResponse d = toResponse e ∧
    (toResponse d).url = d.url ∧
    (toResponse d).status_code = d.status_code ∧
    (toResponse d).headers = d.headers ∧
    (toResponse d).cookies = d.cookies ∧
    (toResponse d).created_at = d.created_at ∧
    (toResponse d).updated_at = d.updated_at := by
  refine ⟨?_, rfl, rfl, rfl, rfl, rfl, rfl⟩
  simp [toResponse, h1, h2, h3, h4, h5, h6]

/-- Witness for C7 at two concrete records differing only in page_source. -/
theorem C7_projection_excludes_body_witness :
    sample_doc.url = sample_doc_alt.url ∧
    sample_doc.status_code = sample_doc_alt.status_code ∧
    sample_doc.headers = sample_doc_alt.headers ∧
    sample_doc.cookies = sample_doc_alt.cookies ∧
    sample_doc.created_at = sample_doc_alt.created_at ∧
    sample_doc.updated_at = sample_doc_alt.updated_at ∧
    sample_doc.page_source ≠ sample_doc_alt.page_source ∧
    (toResponse sample_doc = toResponse sample_doc_alt ∧
     (toResponse sample_doc).url = sample_doc.url ∧
     (toResponse sample_doc).status_code = sample_doc.status_code ∧
     (toResponse sample_doc).headers = sample_doc.headers ∧
     (toResponse sample_doc).cookies = sample_doc.cookies ∧
     (toResponse sample_doc).created_at = sample_doc.created_at ∧
     (toResponse sample_doc).updated_at = sample_doc.updated_at) :=
  ⟨rfl, rfl, rfl, rfl, rfl, rfl, by decide,
   C7_projection_excludes_body sample_doc sample_doc_alt rfl rfl rfl rfl rfl rfl⟩

/-- C10: when the fetch stage fails, store_metadata performs no store write
at all: the url slot is left exactly as it was, zero write operations reach
the collection, and the FetchError propagates to the caller. -/
theorem C10_no_write_on_fetch_failure (url : String) (oracle : Nat → FetchOutcome)
    (times : Nat → Nat) (s : Settings) (now : Nat) (slot : Option MetadataDocument)
    (a : DbAnomaly) (m : String)
    (h : fetch_metadata url oracle times s = FetchResult.fetchError m) :
    store_metadata url oracle times s now slot a =
      ⟨ServiceOutcome.error (ServiceErr.fetchError m), slot, 0⟩ := by
  simp [store_metadata, h]

/-- Witness for C10: a malformed-URL fetch failure with an occupied slot. -/
theorem C10_no_write_on_fetch_failure_witness :
    fetch_metadata "u" (fun _ => FetchOutcome.invalidURL "bad") (fun _ => 0) default_settings
      = FetchResult.fetchError "Invalid URL 'u': bad" ∧
    store_metadata "u" (fun _ => FetchOutcome.invalidURL "bad") (fun _ => 0) default_settings
        7 (some sample_doc) DbAnomaly.normal
      = ⟨ServiceOutcome.error (ServiceErr.fetchError "Invalid URL 'u': bad"),
          some sample_doc, 0⟩ :=
  ⟨by decide,
   C10_no_write_on_fetch_failure "u" (fun _ => FetchOutcome.invalidURL "bad") (fun _ => 0)
     default_settings 7 (some sample_doc) DbAnomaly.normal "Invalid URL 'u': bad" (by decide)⟩

/-- A transiently-classified outcome makes the single attempt re-raise a
transient exception. -/
theorem do_fetch_of_transient (url : String) (now : Nat) (o : FetchOutcome)
    (h : o.isTransient = true) :
    ∃ e : TransientErr, do_fetch url now o = DoFetchResult.transient e := by
  cases o <;> simp_all [FetchOutcome.isTransient, do_fetch]

/-- A non-retryable exception stops the retry loop at once. -/
theorem retry_loop_raises (url : String) (oracle : Nat → FetchOutcome)
    (times : Nat → Nat) (gas n : Nat) (m : String)
    (h : do_fetch url (times n) (oracle n) = DoFetchResult.fetchErr m) :
    retry_loop url oracle times gas n = RetryResult.raised m := by
  unfold retry_loop
  rw [h]

/-- A transient failure with remaining budget moves the loop to the next
attempt. -/
theorem retry_loop_step (url : String) (oracle : Nat → FetchOutcome)
    (times : Nat → Nat) (g n : Nat) (e : TransientErr)
    (h : do_fetch url (times n) (oracle n) = DoFetchResult.transient e) :
    retry_loop url oracle times (g + 1) n = retry_loop url oracle times g (n + 1) := by
  conv_lhs => unfold retry_loop
  rw [h]

/-- A transient failure with the budget exhausted raises RetryError wrapping
that failure. -/
theorem retry_loop_stop (url : String) (oracle : Nat → FetchOutcome)
    (times : Nat → Nat) (n : Nat) (e : TransientErr)
    (h : do_fetch url (times n) (oracle n) = DoFetchResult.transient e) :
    retry_loop url oracle times 0 n = RetryResult.retryError e := by
  unfold retry_loop
  rw [h]

/-- Attempt counting mirrors the loop: a non-transient outcome at attempt n
means that attempt is the last one, whatever the remaining budget. -/
theorem retry_attempts_of_not_transient (url : String) (oracle : Nat → FetchOutcome)
    (times : Nat → Nat) (gas n : Nat)
    (h : (oracle n).isTransient = false) :
    retry_attempts url oracle times gas n = 1 := by
  cases gas with
  | zero => rfl
  | succ g =>
    cases ho : oracle n <;>
      simp_all [FetchOutcome.isTransient, retry_attempts, do_fetch]

/-- Attempt counting: transient failure with remaining budget. -/
theorem retry_attempts_step (url : String) (oracle : Nat → FetchOutcome)
    (times : Nat → Nat) (g n : Nat) (e : TransientErr)
    (h : do_fetch url (times n) (oracle n) = DoFetchResult.transient e) :
    retry_attempts url oracle times (g + 1) n
      = 1 + retry_attempts url oracle times g (n + 1) := by
  conv_lhs => unfold retry_attempts
  rw [h]

/-- Attempt counting: with the budget exhausted only the current attempt
runs. -/
theorem retry_attempts_stop (url : String) (oracle : Nat → FetchOutcome)
    (times : Nat → Nat) (n : Nat) :
    retry_attempts url oracle times 0 n = 1 :=
  rfl

/-- When every attempt fails transiently, a loop entered at attempt n with
budget gas performs gas + 1 attempts and ends in a RetryError wrapping the
transient failure of the last attempt, number n + gas. -/
theorem retry_loop_exhausts (url : String) (oracle : Nat → FetchOutcome)
    (times : Nat → Nat) (h : ∀ k, (oracle k).isTransient = true) :
    ∀ gas n, ∃ e : TransientErr,
      do_fetch url (times (n + gas)) (oracle (n + gas)) = DoFetchResult.transient e ∧
      retry_loop url oracle times gas n = RetryResult.retryError e ∧
      retry_attempts url oracle times gas n = gas + 1 := by
  intro gas
  induction gas with
  | zero =>
    intro n
    obtain ⟨e, he⟩ := do_fetch_of_transient url (times n) (oracle n) (h n)
    exact ⟨e, by simpa using he,
      retry_loop_stop url oracle times n e he,
      retry_attempts_stop url oracle times n⟩
  | succ g ih =>
    intro n
    obtain ⟨e0, he0⟩ := do_fetch_of_transient url (times n) (oracle n) (h n)
    obtain ⟨e, he1, he2, he3⟩ := ih (n + 1)
    have hidx : n + (g + 1) = n + 1 + g := by omega
    refine ⟨e, ?_, ?_, ?_⟩
    · rw [hidx]; exact he1
    · rw [retry_loop_step url oracle times g n e0 he0]; exact he2
    · rw [retry_attempts_step url oracle times g n e0 he0, he3]; omega

/-- C1: when every fetch attempt raises a transient failure, fetch_metadata
performs exactly http_max_retries + 1 attempts and raises a terminal
FetchError whose message is built from the url, the attempt count
http_max_retries + 1 and the description of the last attempt's underlying
failure. -/
theorem C1_retry_exhaustion (url : String) (oracle : Nat → FetchOutcome)
    (times : Nat → Nat) (s : Settings)
    (h : ∀ k, (oracle k).isTransient = true) :
    attempts_made url oracle times s = s.http_max_retries + 1 ∧
    ∃ e : TransientErr,
      do_fetch url (times (s.http_max_retries + 1)) (oracle (s.http_max_retries + 1))
        = DoFetchResult.transient e ∧
      fetch_metadata url oracle times s
        = FetchResult.fetchError ("Failed to fetch " ++ url ++ " after "
            ++ toString (s.http_max_retries + 1) ++ " attempts: " ++ e.describe) := by
  obtain ⟨e, h1, h2, h3⟩ := retry_loop_exhausts url oracle times h s.http_max_retries 1
  have hidx : 1 + s.http_max_retries = s.http_max_retries + 1 := Nat.add_comm _ _
  rw [hidx] at h1
  refine ⟨h3, e, h1, ?_⟩
  unfold fetch_metadata fetch_with_retry
  rw [h2]

/-- Witness for C1: an always-timing-out oracle with a retry budget of 1
gives exactly 2 attempts. -/
theorem C1_retry_exhaustion_witness :
    (∀ k : Nat, ((fun _ : Nat => FetchOutcome.timeout "timed out") k).isTransient = true) ∧
    (attempts_made "https://example.com/" (fun _ => FetchOutcome.timeout "timed out")
        (fun _ => 0) test_settings = test_settings.http_max_retries + 1 ∧
     ∃ e : TransientErr,
       do_fetch "https://example.com/"
           ((fun _ : Nat => 0) (test_settings.http_max_retries + 1))
           ((fun _ : Nat => FetchOutcome.timeout "timed out") (test_settings.http_max_retries + 1))
         = DoFetchResult.transient e ∧
       fetch_metadata "https://example.com/" (fun _ => FetchOutcome.timeout "timed out")
           (fun _ => 0) test_settings
         = FetchResult.fetchError ("Failed to fetch " ++ "https://example.com/" ++ " after "
             ++ toString (test_settings.http_max_retries + 1) ++ " attempts: " ++ TransientErr.describe e)) :=
  ⟨fun _ => rfl,
   C1_retry_exhaustion "https://example.com/" (fun _ => FetchOutcome.timeout "timed out")
     (fun _ => 0) test_settings (fun _ => rfl)⟩

/-- C5: a permanent failure on the first attempt (malformed URL or any
request-level error other than timeout and connect failure) gives exactly
one attempt and an immediate FetchError, and a non-transient outcome at any
attempt is never followed by a retry whatever the remaining budget. -/
theorem C5_permanent_single_attempt (url : String) (oracle : Nat → FetchOutcome)
    (times : Nat → Nat) (s : Settings)
    (h : (oracle 1).isPermanentFailure = true) :
    attempts_made url oracle times s = 1 ∧
    (∃ m : String, do_fetch url (times 1) (oracle 1) = DoFetchResult.fetchErr m ∧
      fetch_metadata url oracle times s = FetchResult.fetchError m) ∧
    (∀ gas n, (oracle n).isTransient = false →
      retry_attempts url oracle times gas n = 1) := by
  have hnt : (oracle 1).isTransient = false := by
    cases ho : oracle 1 <;> simp_all [FetchOutcome.isTransient, FetchOutcome.isPermanentFailure]
  have hm : ∃ m : String, do_fetch url (times 1) (oracle 1) = DoFetchResult.fetchErr m := by
    cases ho : oracle 1 <;> simp_all [FetchOutcome.isPermanentFailure, do_fetch]
  obtain ⟨m, hm⟩ := hm
  refine ⟨retry_attempts_of_not_transient url oracle times s.http_max_retries 1 hnt,
    ⟨m, hm, ?_⟩,
    fun gas n hn => retry_attempts_of_not_transient url oracle times gas n hn⟩
  unfold fetch_metadata fetch_with_retry
  rw [retry_loop_raises url oracle times s.http_max_retries 1 m hm]

/-- Witness for C5: a malformed URL causes one attempt and an immediate
FetchError under the default retry budget of 3. -/
theorem C5_permanent_single_attempt_witness :
    ((FetchOutcome.invalidURL "invalid url").isPermanentFailure = true) ∧
    (attempts_made "u" (fun _ => FetchOutcome.invalidURL "invalid url") (fun _ => 0)
        default_settings = 1 ∧
     (∃ m : String,
        do_fetch "u" ((fun _ : Nat => 0) 1)
            ((fun _ : Nat => FetchOutcome.invalidURL "invalid url") 1)
          = DoFetchResult.fetchErr m ∧
        fetch_metadata "u" (fun _ => FetchOutcome.invalidURL "invalid url") (fun _ => 0)
            default_settings = FetchResult.fetchError m) ∧
     (∀ gas n : Nat,
        ((fun _ : Nat => FetchOutcome.invalidURL "invalid url") n).isTransient = false →
        retry_attempts "u" (fun _ => FetchOutcome.invalidURL "invalid url") (fun _ => 0)
          gas n = 1)) :=
  ⟨rfl,
   C5_permanent_single_attempt "u" (fun _ => FetchOutcome.invalidURL "invalid url")
     (fun _ => 0) default_settings rfl⟩

/-- For attempt numbers from 1 on, the configured minimum clamp of the
fetch backoff is inactive beyond providing the starting value, so the wait
is min of the exponential and the cap. -/
theorem fetch_retry_wait_formula (s : Settings) (n : Nat) (_h : 1 ≤ n) :
    fetch_retry_wait s n = min ((1 / 2 : ℚ) * 2 ^ (n - 1)) 10 := by
  unfold fetch_retry_wait wait_exponential
  have hpow : (1 : ℚ) ≤ 2 ^ (n - 1) :=
    one_le_pow₀ (by norm_num : (1 : ℚ) ≤ 2)
  have hlo : (1 / 2 : ℚ) ≤ (1 / 2) * 2 ^ (n - 1) := by nlinarith
  have hmin : (1 / 2 : ℚ) ≤ min ((1 / 2) * 2 ^ (n - 1)) 10 :=
    le_min hlo (by norm_num)
  have h0 : max (0 : ℚ) (1 / 2) = 1 / 2 := by norm_num
  rw [h0, max_eq_right hmin]

/-- C8 counterexample: the retry backoff delays are not configurable. The
Settings model has no backoff field, and changing every configuration field
leaves every wait unchanged, while under the spec reading of the claim a
reconfigured minimum delay of 2 and maximum delay of 20 would give a
different wait already at attempt 6. -/
theorem C8_backoff_not_configurable :
    alt_settings ≠ default_settings ∧
    fetch_retry_wait alt_settings 1 = fetch_retry_wait default_settings 1 ∧
    fetch_retry_wait alt_settings 2 = fetch_retry_wait default_settings 2 ∧
    fetch_retry_wait alt_settings 6 = fetch_retry_wait default_settings 6 ∧
    spec_backoff_wait 2 20 6 ≠ spec_backoff_wait (1 / 2) 10 6 ∧
    spec_backoff_wait (1 / 2) 10 6 = fetch_retry_wait default_settings 6 := by
  refine ⟨by decide, rfl, rfl, rfl, by norm_num [spec_backoff_wait], ?_⟩
  rw [fetch_retry_wait_formula default_settings 6 (by norm_num)]
  rfl

/-- C8 amended: the wait between fetch retries is exponential, starting at a
fixed minimum delay of 0.5 time-units, doubling each attempt, and capped at
a fixed maximum delay of 10 time-units; the delays are hard-coded constants
of the retry decorator, not configurable settings. -/
theorem C8_backoff_shape (s : Settings) (n : Nat) (h : 1 ≤ n) :
    fetch_retry_wait s 1 = 1 / 2 ∧
    fetch_retry_wait s n = min ((1 / 2 : ℚ) * 2 ^ (n - 1)) 10 ∧
    fetch_retry_wait s (n + 1) = min (2 * fetch_retry_wait s n) 10 ∧
    1 / 2 ≤ fetch_retry_wait s n ∧ fetch_retry_wait s n ≤ 10 := by
  have fn := fetch_retry_wait_formula s n h
  have fn1 := fetch_retry_wait_formula s (n + 1) (by omega)
  refine ⟨?_, fn, ?_, ?_, ?_⟩
  · rw [fetch_retry_wait_formula s 1 le_rfl]; norm_num
  · rw [fn1, fn]
    have hpow : ((1 : ℚ) / 2) * 2 ^ ((n + 1) - 1) = 2 * ((1 / 2) * 2 ^ (n - 1)) := by
      have hn : (n + 1) - 1 = (n - 1) + 1 := by omega
      rw [hn, pow_succ]; ring
    rw [hpow]
    rcases le_total ((1 / 2 : ℚ) * 2 ^ (n - 1)) 10 with hle | hge
    · rw [min_eq_left hle]
    · rw [min_eq_right hge, min_eq_right (by linarith : (10 : ℚ) ≤ 2 * ((1 / 2) * 2 ^ (n - 1))),
        min_eq_right (by norm_num : (10 : ℚ) ≤ 2 * 10)]
  · rw [fn]
    have hpow : (1 : ℚ) ≤ 2 ^ (n - 1) :=
      one_le_pow₀ (by norm_num : (1 : ℚ) ≤ 2)
    exact le_min (by nlinarith) (by norm_num)
  · rw [fn]; exact min_le_right _ _

/-- Witness for C8 at the default settings and attempt number 5. -/
theorem C8_backoff_shape_witness :
    1 ≤ 5 ∧
    (fetch_retry_wait default_settings 1 = 1 / 2 ∧
     fetch_retry_wait default_settings 5 = min ((1 / 2 : ℚ) * 2 ^ (5 - 1)) 10 ∧
     fetch_retry_wait default_settings (5 + 1) = min (2 * fetch_retry_wait default_settings 5) 10 ∧
     1 / 2 ≤ fetch_retry_wait default_settings 5 ∧ fetch_retry_wait default_settings 5 ≤ 10) :=
  ⟨by norm_num, C8_backoff_shape default_settings 5 (by norm_num)⟩

/-- An anomaly-free upsert always succeeds, stores one document, and its
creation time comes from the prior record when there is one and from the
candidate otherwise. -/
theorem upsert_normal (d : MetadataDocument) (now : Nat) (slot : Option MetadataDocument) :
    upsert d now slot DbAnomaly.normal =
      ⟨UpsertOutcome.ok (applyPayload d now (slotCreated slot d)),
        some (applyPayload d now (slotCreated slot d)), 1⟩ := by
  cases slot <;> rfl

/-- One step of an anomaly-free upsert sequence. -/
theorem run_upserts_cons (slot : Option MetadataDocument) (d : MetadataDocument)
    (t : Nat) (rest : List (MetadataDocument × Nat)) :
    run_upserts slot ((d, t) :: rest) =
      applyPayload d t (slotCreated slot d)
        :: run_upserts (some (applyPayload d t (slotCreated slot d))) rest := by
  cases slot <;> rfl

/-- The update timestamps an anomaly-free upsert sequence leaves behind are
exactly the wall-clock readings of its writes. -/
theorem run_upserts_updated_map (steps : List (MetadataDocument × Nat)) :
    ∀ slot, (run_upserts slot steps).map (fun r => r.updated_at)
      = steps.map (fun x => x.2) := by
  induction steps with
  | nil => intro slot; rfl
  | cons s rest ih =>
    intro slot
    obtain ⟨d, t⟩ := s
    rw [run_upserts_cons]
    simp [applyPayload, ih]

/-- Once the slot is occupied, every later anomaly-free write preserves the
occupant's creation timestamp. -/
theorem run_upserts_created_map (steps : List (MetadataDocument × Nat)) :
    ∀ p : MetadataDocument,
      (run_upserts (some p) steps).map (fun r => r.created_at)
        = steps.map (fun _ => p.created_at) := by
  induction steps with
  | nil => intro p; rfl
  | cons s rest ih =>
    intro p
    obtain ⟨d, t⟩ := s
    rw [run_upserts_cons]
    simp [slotCreated, applyPayload, ih]

/-- C4: starting from an empty slot, every record an anomaly-free upsert
sequence stores satisfies created_at ≤ updated_at, and when the wall-clock
readings of the writes strictly increase and each candidate is fetched no
later than its write, the successive updated_at values strictly increase. -/
theorem C4_monotonic_updated (steps : List (MetadataDocument × Nat))
    (hmono : steps.Pairwise (fun a b => a.2 < b.2))
    (hcand : ∀ x ∈ steps, x.1.created_at ≤ x.2) :
    (∀ r ∈ run_upserts Option.none steps, r.created_at ≤ r.updated_at) ∧
    (run_upserts Option.none steps).Chain' (fun a b => a.updated_at < b.updated_at) := by
  constructor
  · intro r hr
    cases steps with
    | nil => cases hr
    | cons s rest =>
      obtain ⟨d, t⟩ := s
      rw [run_upserts_cons] at hr
      have hd : d.created_at ≤ t := hcand (d, t) (List.mem_cons_self _ _)
      rcases List.mem_cons.1 hr with h | h
      · subst h
        simpa [applyPayload, slotCreated] using hd
      · have hc : r.created_at = d.created_at := by
          have hm : r.created_at
              ∈ (run_upserts (some (applyPayload d t (slotCreated Option.none d))) rest).map
                  (fun x => x.created_at) :=
            List.mem_map_of_mem _ h
          rw [run_upserts_created_map] at hm
          obtain ⟨x, _, hx⟩ := List.mem_map.1 hm
          simpa [applyPayload, slotCreated] using hx.symm
        have hu : ∃ x ∈ rest, x.2 = r.updated_at := by
          have hm : r.updated_at
              ∈ (run_upserts (some (applyPayload d t (slotCreated Option.none d))) rest).map
                  (fun x => x.updated_at) :=
            List.mem_map_of_mem _ h
          rw [run_upserts_updated_map] at hm
          exact List.mem_map.1 hm
        obtain ⟨x, hxmem, hxeq⟩ := hu
        have ht : t < x.2 := (List.pairwise_cons.1 hmono).1 x hxmem
        omega
  · have h2 : List.Chain' (fun a b : Nat => a < b)
        ((run_upserts Option.none steps).map (fun r => r.updated_at)) := by
      rw [run_upserts_updated_map]
      rw [List.chain'_map]
      exact hmono.chain'
    rw [List.chain'_map] at h2
    exact h2

/-- Witness for C4 on a concrete two-write sequence. -/
theorem C4_monotonic_updated_witness :
    ([(sample_doc, 5), (sample_doc2, 9)] : List (MetadataDocument × Nat)).Pairwise
      (fun a b => a.2 < b.2) ∧
    (∀ x ∈ ([(sample_doc, 5), (sample_doc2, 9)] : List (MetadataDocument × Nat)),
      x.1.created_at ≤ x.2) ∧
    ((∀ r ∈ run_upserts Option.none [(sample_doc, 5), (sample_doc2, 9)],
        r.created_at ≤ r.updated_at) ∧
     (run_upserts Option.none [(sample_doc, 5), (sample_doc2, 9)]).Chain'
        (fun a b => a.updated_at < b.updated_at)) :=
  ⟨by decide, by decide,
   C4_monotonic_updated [(sample_doc, 5), (sample_doc2, 9)] (by decide) (by decide)⟩

end MetadataInventory
